import Mathlib

/-!
Verification of the asynchronous request-orchestration layer of the
AstroGenAI frontend (`src/static/js/app.js`).

The JavaScript source is shallowly embedded: the single-threaded event-loop
semantics of one `makeApiRequest` invocation is rendered as a pure function
producing the ordered list of observable events of that invocation (DOM
writes, the suspension points `await Promise.all` / `await json()`, the
final promise resolution) together with the resolved value.  JavaScript
truthiness of JSON values is made explicit through `JsonVal.truthy`, and the
JS `a || b` defaulting idiom through `jsOrString`.
-/

/-- A JSON-like value as far as the frontend inspects one (the `success`
field of a payload).  `undef` models an absent field (JS `undefined`). -/
inductive JsonVal
  | undef
  | jnull
  | jbool (b : Bool)
  | jnum (n : Int)
  | jstr (s : String)
deriving DecidableEq, Repr

/-- JavaScript truthiness of a `JsonVal` (`false`, `0`, the empty string,
`null` and `undefined` are falsey). -/
def JsonVal.truthy : JsonVal → Bool
  | .undef => false
  | .jnull => false
  | .jbool b => b
  | .jnum n => n != 0
  | .jstr s => s != ""

/-- The JS idiom `x || d` on an optional string `x` (`app.js` line 69 and
line 250): an absent or empty string is falsey and selects the default. -/
def jsOrString : Option String → String → String
  | some s, d => if s = "" then d else s
  | none, d => d

/-- The transport-status-derived message built at `app.js` line 69. -/
def httpErrorMessage (status : Nat) : String :=
  "Erreur HTTP " ++ toString status

/-- The parsed JSON body of a backend response, as consumed by
`makeApiRequest`: the envelope fields `success` and `error` plus the
endpoint-specific rest of the object (`α`). -/
structure Payload (α : Type) where
  success : JsonVal
  error : Option String
  body : α
deriving DecidableEq

/-- Outcome of `apiResponse.json()` (`app.js` line 67): either the body is
not valid JSON (the promise rejects) or it parses to a payload. -/
inductive JsonOutcome (α : Type)
  | parseError (msg : String)
  | parsed (data : Payload α)
deriving DecidableEq

/-- Outcome of `fetch(endpoint, options)` (`app.js` line 58): either the
request cannot complete (the fetch promise rejects, e.g. network
unreachable) or a response arrives carrying the transport flag `ok`, the
status code, and a JSON body. -/
inductive FetchOutcome (α : Type)
  | fetchError (msg : String)
  | response (ok : Bool) (status : Nat) (json : JsonOutcome α)
deriving DecidableEq

/-- One invocation of `makeApiRequest`: the endpoint, whether
`document.getElementById` found the loading-indicator element and the
result-target element (`app.js` lines 53-54), and the outcome of the
network call.  The `options` object is never inspected by the function and
is not modelled. -/
structure RequestInput (α : Type) where
  endpoint : String
  hasLoading : Bool
  hasResult : Bool
  fetch : FetchOutcome α
deriving DecidableEq

/-- Observable events of one `makeApiRequest` invocation, in program order.
`awaitBoth` is the first suspension point (`await Promise.all`, line 65),
`awaitJson` the second (line 67), `resolveP` the resolution of the promise
returned to the caller. -/
inductive Event
  | timerStart
  | fetchDispatch
  | setLoading (active : Bool)
  | clearResult
  | awaitBoth
  | awaitJson
  | logError (endpoint msg : String)
  | renderError (msg : String)
  | resolveP
deriving DecidableEq, Repr

/-- Events of the `catch` block (`app.js` lines 72-75) followed by the
`finally` block (line 77) and the resolution of the promise. -/
def catchEvents (endpoint : String) (hasResult hasLoading : Bool) (msg : String) :
    List Event :=
  Event.logError endpoint msg ::
    (if hasResult then [Event.renderError msg] else []) ++
    (if hasLoading then [Event.setLoading false] else []) ++ [Event.resolveP]

/-- Events of the `finally` block on the non-throwing path (line 77)
followed by the resolution of the promise. -/
def finishEvents (hasLoading : Bool) : List Event :=
  (if hasLoading then [Event.setLoading false] else []) ++ [Event.resolveP]

/-- The error message carried by the `throw` at `app.js` line 69:
`data.error || Erreur HTTP status`. -/
def failureMessage {α : Type} (status : Nat) (data : Payload α) : String :=
  jsOrString data.error (httpErrorMessage status)

/-- Shallow embedding of `makeApiRequest` (`app.js` lines 52-79).  Returns
the event trace of the invocation and the value the returned promise
resolves to (`some data` on confirmed success, `none` otherwise; the
function never rejects).  Program order of the source is kept: line 57
starts the 500ms timer, line 58 dispatches the fetch, line 60 activates the
loading indicator when its element exists, line 61 clears the result
target when its element exists, line 65 is the first `await`, line 68
tests `!apiResponse.ok || !data.success` (JS truthiness), line 69 throws
with `data.error || Erreur HTTP status`. -/
def makeApiRequest {α : Type} (inp : RequestInput α) :
    List Event × Option (Payload α) :=
  let pre : List Event :=
    [Event.timerStart, Event.fetchDispatch] ++
      (if inp.hasLoading then [Event.setLoading true] else []) ++
      (if inp.hasResult then [Event.clearResult] else [])
  match inp.fetch with
  | .fetchError msg =>
      (pre ++ Event.awaitBoth ::
        catchEvents inp.endpoint inp.hasResult inp.hasLoading msg, none)
  | .response ok status json =>
      match json with
      | .parseError msg =>
          (pre ++ Event.awaitBoth :: Event.awaitJson ::
            catchEvents inp.endpoint inp.hasResult inp.hasLoading msg, none)
      | .parsed data =>
          if !ok || !data.success.truthy then
            (pre ++ Event.awaitBoth :: Event.awaitJson ::
              catchEvents inp.endpoint inp.hasResult inp.hasLoading
                (failureMessage status data), none)
          else
            (pre ++ Event.awaitBoth :: Event.awaitJson ::
              finishEvents inp.hasLoading, some data)

/-- `occursBeforeB e1 e2 tr` holds when some occurrence of `e1` strictly
precedes some occurrence of `e2` in the trace `tr`. -/
def occursBeforeB (e1 e2 : Event) : List Event → Bool
  | [] => false
  | e :: rest => (e == e1 && rest.contains e2) || occursBeforeB e1 e2 rest

/-- The minimum visible loading duration in milliseconds (`app.js` line 57). -/
def minimumLoadingMs : Nat := 500

/-- A promise is modelled by the time (ms since invocation) at which it
settles; `Promise.all` settles once every listed promise has. -/
def promiseAllSettleTime (ps : List Nat) : Nat := ps.foldl max 0

/-- Settle time of `await Promise.all([apiCallPromise, minimumLoadingTime])`
(`app.js` lines 57-58 and 65) for a fetch promise that fulfills
`networkMs` after invocation: both promises are created at invocation time
0, the timer settles at `minimumLoadingMs`, the fetch at `networkMs`. -/
def makeApiRequestAwaitTime (networkMs : Nat) : Nat :=
  promiseAllSettleTime [networkMs, minimumLoadingMs]

example :
    (makeApiRequest (α := Unit)
      ⟨"/api/x", true, true, .response true 200 (.parsed ⟨.jbool true, none, ()⟩)⟩).1 =
    [Event.timerStart, Event.fetchDispatch, Event.setLoading true,
     Event.clearResult, Event.awaitBoth, Event.awaitJson,
     Event.setLoading false, Event.resolveP] := rfl

example :
    occursBeforeB (Event.setLoading true) Event.awaitBoth
      (makeApiRequest (α := Unit)
        ⟨"/api/x", true, true, .fetchError "net down"⟩).1 = true := rfl

/-- C1: the promise returned by `makeApiRequest` settles only once both the
network response and the 500ms timer started at invocation have completed:
the settle time of `await Promise.all` dominates both the network duration
and the floor, a response faster than the floor yields a total duration of
at least the floor, and a response at least as slow as the floor yields a
total duration equal to the network duration (the floor adds no latency). -/
theorem makeApiRequest_minimum_duration (networkMs : Nat) :
    networkMs ≤ makeApiRequestAwaitTime networkMs ∧
    minimumLoadingMs ≤ makeApiRequestAwaitTime networkMs ∧
    (minimumLoadingMs ≤ networkMs → makeApiRequestAwaitTime networkMs = networkMs) := by
  unfold makeApiRequestAwaitTime promiseAllSettleTime minimumLoadingMs
  simp only [List.foldl]
  omega

/-- Witness for C1 at the concrete network durations 750ms and 120ms. -/
theorem makeApiRequest_minimum_duration_witness :
    makeApiRequestAwaitTime 750 = 750 ∧ minimumLoadingMs ≤ makeApiRequestAwaitTime 120 :=
  ⟨(makeApiRequest_minimum_duration 750).2.2 (by decide),
   (makeApiRequest_minimum_duration 120).2.1⟩

/-- C2: in every `makeApiRequest` invocation with a loading-indicator
element present, the indicator is activated synchronously (before the
first suspension point `await Promise.all`) and deactivated before the
returned promise resolves, on every outcome branch (confirmed success,
non-ok transport status, falsey payload success flag, fetch rejection and
JSON parse failure are all instances of the universally quantified
input). -/
theorem makeApiRequest_loading_scoped {α : Type} (inp : RequestInput α)
    (h : inp.hasLoading = true) :
    occursBeforeB (Event.setLoading true) Event.awaitBoth (makeApiRequest inp).1 = true ∧
    occursBeforeB (Event.setLoading false) Event.resolveP (makeApiRequest inp).1 = true := by
  obtain ⟨ep, hl, hr, f⟩ := inp
  subst h
  cases hr <;> rcases f with msg | ⟨ok, status, msg | data⟩ <;>
    try exact ⟨rfl, rfl⟩
  all_goals cases ok
  all_goals try exact ⟨rfl, rfl⟩
  all_goals cases htr : data.success.truthy <;>
    simp only [makeApiRequest, htr] <;> exact ⟨rfl, rfl⟩

/-- Witness for C2 at a concrete invocation whose fetch rejects. -/
theorem makeApiRequest_loading_scoped_witness :
    occursBeforeB (Event.setLoading true) Event.awaitBoth
      (makeApiRequest (α := Unit) ⟨"/api/get_astral_context", true, false,
        .fetchError "net down"⟩).1 = true ∧
    occursBeforeB (Event.setLoading false) Event.resolveP
      (makeApiRequest (α := Unit) ⟨"/api/get_astral_context", true, false,
        .fetchError "net down"⟩).1 = true :=
  makeApiRequest_loading_scoped
    ⟨"/api/get_astral_context", true, false, .fetchError "net down"⟩ rfl

/-- C3 is false on the code: at a concrete confirmed-success invocation
with both DOM elements present, the fetch is dispatched (line 58) strictly
before the loading indicator is activated (line 60), and no occurrence of
the activation precedes the dispatch in the trace. -/
theorem loading_active_before_fetch_dispatch_counterexample :
    occursBeforeB Event.fetchDispatch (Event.setLoading true)
      (makeApiRequest (α := Unit) ⟨"/api/generate_single_horoscope", true, true,
        .response true 200 (.parsed ⟨.jbool true, none, ()⟩)⟩).1 = true ∧
    occursBeforeB (Event.setLoading true) Event.fetchDispatch
      (makeApiRequest (α := Unit) ⟨"/api/generate_single_horoscope", true, true,
        .response true 200 (.parsed ⟨.jbool true, none, ()⟩)⟩).1 = false :=
  ⟨rfl, rfl⟩

/-- C3 (amended): within one `makeApiRequest` invocation with a
loading-indicator element present, the fetch is dispatched first and the
indicator is activated immediately afterwards, synchronously before the
invocation's first suspension point — so the indicator is active before
any part of the response can be processed, but the fetch is initiated
while the indicator is still inactive. -/
theorem makeApiRequest_loading_after_dispatch_before_await {α : Type}
    (inp : RequestInput α) (h : inp.hasLoading = true) :
    occursBeforeB Event.fetchDispatch (Event.setLoading true) (makeApiRequest inp).1 = true ∧
    occursBeforeB (Event.setLoading true) Event.awaitBoth (makeApiRequest inp).1 = true := by
  obtain ⟨ep, hl, hr, f⟩ := inp
  subst h
  cases hr <;> rcases f with msg | ⟨ok, status, msg | data⟩ <;>
    try exact ⟨rfl, rfl⟩
  all_goals cases ok
  all_goals try exact ⟨rfl, rfl⟩
  all_goals cases htr : data.success.truthy <;>
    simp only [makeApiRequest, htr] <;> exact ⟨rfl, rfl⟩

/-- Witness for the amended C3 at a concrete invocation. -/
theorem makeApiRequest_loading_after_dispatch_before_await_witness :
    occursBeforeB Event.fetchDispatch (Event.setLoading true)
      (makeApiRequest (α := Unit) ⟨"/api/comfyui/generate_video", true, true,
        .response false 500 (.parseError "bad json")⟩).1 = true ∧
    occursBeforeB (Event.setLoading true) Event.awaitBoth
      (makeApiRequest (α := Unit) ⟨"/api/comfyui/generate_video", true, true,
        .response false 500 (.parseError "bad json")⟩).1 = true :=
  makeApiRequest_loading_after_dispatch_before_await
    ⟨"/api/comfyui/generate_video", true, true,
      .response false 500 (.parseError "bad json")⟩ rfl

/-- C10: in every `makeApiRequest` invocation with a result-target element
present, the target's previous content is cleared synchronously before the
first suspension point `await Promise.all` — hence before the network
response can be observed — regardless of the eventual outcome. -/
theorem makeApiRequest_clears_result_before_response {α : Type}
    (inp : RequestInput α) (h : inp.hasResult = true) :
    occursBeforeB Event.clearResult Event.awaitBoth (makeApiRequest inp).1 = true := by
  obtain ⟨ep, hl, hr, f⟩ := inp
  subst h
  cases hl <;> rcases f with msg | ⟨ok, status, msg | data⟩ <;>
    try rfl
  all_goals cases ok
  all_goals try rfl
  all_goals cases htr : data.success.truthy <;>
    simp only [makeApiRequest, htr] <;> rfl

/-- Witness for C10 at a concrete invocation with a falsey success flag. -/
theorem makeApiRequest_clears_result_before_response_witness :
    occursBeforeB Event.clearResult Event.awaitBoth
      (makeApiRequest (α := Unit) ⟨"/api/youtube/upload_batch", false, true,
        .response true 200 (.parsed ⟨.jbool false, some "quota", ()⟩)⟩).1 = true :=
  makeApiRequest_clears_result_before_response
    ⟨"/api/youtube/upload_batch", false, true,
      .response true 200 (.parsed ⟨.jbool false, some "quota", ()⟩)⟩ rfl

/-- C4 is false on the code: line 68 tests JS truthiness of `data.success`,
not strict equality with `true`.  With an ok transport and payload success
equal to the number 1 (truthy but not the boolean `true`) the call is
classified as success and resolves to the payload; moreover with a
present-but-empty payload `error` string the rendered failure message is
the transport-status-derived one, not the payload-provided string. -/
theorem strict_success_flag_claim_counterexample :
    (makeApiRequest (α := Unit) ⟨"/api/ollama/models", true, true,
      .response true 200 (.parsed ⟨.jnum 1, none, ()⟩)⟩).2 =
        some ⟨.jnum 1, none, ()⟩ ∧
    JsonVal.jnum 1 ≠ JsonVal.jbool true ∧
    Event.renderError ("Erreur HTTP " ++ toString 404) ∈
      (makeApiRequest (α := Unit) ⟨"/api/ollama/models", true, true,
        .response false 404 (.parsed ⟨.jbool true, some "", ()⟩)⟩).1 := by
  refine ⟨rfl, by decide, ?_⟩
  simp [makeApiRequest, catchEvents, failureMessage, jsOrString, httpErrorMessage]

/-- C4 (amended): the Result Normalizer decision of `makeApiRequest`
classifies a response as success exactly when the transport status is ok
and the parsed payload's `success` field is truthy (a truthy-but-not-true
value counts as success); on failure with a result target present, the
rendered message is the payload-provided `error` string when that string
is truthy (present and non-empty), else the message derived from the
transport status code, in that fixed precedence. -/
theorem makeApiRequest_success_classification {α : Type} (inp : RequestInput α)
    (ok : Bool) (status : Nat) (data : Payload α)
    (hf : inp.fetch = .response ok status (.parsed data)) :
    (makeApiRequest inp).2.isSome = (ok && data.success.truthy) ∧
    ((ok && data.success.truthy) = false → inp.hasResult = true →
      Event.renderError (match data.error with
        | some s => if s = "" then "Erreur HTTP " ++ toString status else s
        | none => "Erreur HTTP " ++ toString status) ∈ (makeApiRequest inp).1) := by
  obtain ⟨ep, hl, hr, f⟩ := inp
  subst hf
  constructor
  · cases ok
    · rfl
    · cases htr : data.success.truthy <;> simp [makeApiRequest, htr]
  · intro hfail hres
    subst hres
    rcases herr : data.error with _ | s
    · cases ok
      · simp [makeApiRequest, catchEvents, failureMessage, jsOrString,
          httpErrorMessage, herr]
      · cases htr : data.success.truthy
        · simp [makeApiRequest, catchEvents, failureMessage, jsOrString,
            httpErrorMessage, herr, htr]
        · simp [htr] at hfail
    · cases ok
      · simp [makeApiRequest, catchEvents, failureMessage, jsOrString,
          httpErrorMessage, herr]
      · cases htr : data.success.truthy
        · simp [makeApiRequest, catchEvents, failureMessage, jsOrString,
            httpErrorMessage, herr, htr]
        · simp [htr] at hfail

/-- Witness for the amended C4: a non-ok transport with an absent payload
error renders the status-derived message, and a truthy payload success
with ok transport resolves to the payload. -/
theorem makeApiRequest_success_classification_witness :
    (makeApiRequest (α := Unit) ⟨"/api/comfyui/generate_batch", true, true,
      .response false 503 (.parsed ⟨.jbool false, none, ()⟩)⟩).2.isSome =
        (false && (JsonVal.jbool false).truthy) ∧
    Event.renderError ("Erreur HTTP " ++ toString 503) ∈
      (makeApiRequest (α := Unit) ⟨"/api/comfyui/generate_batch", true, true,
        .response false 503 (.parsed ⟨.jbool false, none, ()⟩)⟩).1 :=
  ⟨(makeApiRequest_success_classification _ false 503 ⟨.jbool false, none, ()⟩ rfl).1,
   (makeApiRequest_success_classification _ false 503 ⟨.jbool false, none, ()⟩ rfl).2
     rfl rfl⟩

/-- C5: every `makeApiRequest` invocation resolves (the trace ends with the
promise resolution, never an uncaught rejection), resolves to the parsed
payload exactly when the transport is ok and the payload success flag is
truthy, and resolves to null on every other path (non-ok status, falsey
success flag, fetch rejection, JSON parse failure). -/
theorem makeApiRequest_resolves_payload_or_null {α : Type} (inp : RequestInput α) :
    (makeApiRequest inp).1.getLast? = some Event.resolveP ∧
    ∀ d : Payload α,
      ((makeApiRequest inp).2 = some d ↔
        d.success.truthy = true ∧
        ∃ status, inp.fetch = .response true status (.parsed d)) := by
  obtain ⟨ep, hl, hr, f⟩ := inp
  rcases f with msg | ⟨ok, status, msg | data⟩
  · refine ⟨by cases hl <;> cases hr <;> rfl, fun d => ?_⟩
    simp [makeApiRequest]
  · refine ⟨by cases hl <;> cases hr <;> rfl, fun d => ?_⟩
    simp [makeApiRequest]
  · cases ok
    · refine ⟨by cases hl <;> cases hr <;> rfl, fun d => ?_⟩
      simp [makeApiRequest]
    · cases htr : data.success.truthy
      · refine ⟨by cases hl <;> cases hr <;> simp only [makeApiRequest, htr] <;> rfl,
          fun d => ?_⟩
        simp only [makeApiRequest, htr]
        constructor
        · intro h
          simp at h
        · rintro ⟨hd, s, heq⟩
          injection heq with h1 h2 h3
          injection h3 with h4
          subst h4
          simp [hd] at htr
      · refine ⟨by cases hl <;> cases hr <;> simp only [makeApiRequest, htr] <;> rfl,
          fun d => ?_⟩
        simp only [makeApiRequest, htr]
        constructor
        · intro h
          simp at h
          subst h
          exact ⟨htr, status, rfl⟩
        · rintro ⟨hd, s, heq⟩
          injection heq with h1 h2 h3
          injection h3 with h4
          subst h4
          simp

/-- Witness for C5 at a concrete confirmed-success invocation. -/
theorem makeApiRequest_resolves_payload_or_null_witness :
    (makeApiRequest (α := Unit) ⟨"/api/generate_daily_horoscopes", true, true,
      .response true 200 (.parsed ⟨.jbool true, none, ()⟩)⟩).2 =
        some ⟨.jbool true, none, ()⟩ :=
  ((makeApiRequest_resolves_payload_or_null
      ⟨"/api/generate_daily_horoscopes", true, true,
        .response true 200 (.parsed ⟨.jbool true, none, ()⟩)⟩).2
    ⟨.jbool true, none, ()⟩).mpr ⟨rfl, 200, rfl⟩

/-- One entry of the `data.models` array returned by `/api/ollama/models`
(`app.js` lines 240-257 read `model.name` / `m.name`). -/
structure OllamaModel where
  name : String
deriving DecidableEq, Repr

/-- The parsed body of the model-listing response as `loadAvailableModels`
consumes it: the `success` flag, the optional `error` string and the
optional `models` array (`models := none` models an absent field). -/
structure ModelsPayload where
  success : JsonVal
  error : Option String
  models : Option (List OllamaModel)
deriving DecidableEq

/-- Outcome of the `fetch` plus `json()` pair at `app.js` lines 237-238.
`loadAvailableModels` never consults the transport status, so a response
is just its parsed payload; both a fetch rejection and a JSON parse
failure surface as exceptions caught at line 264. -/
inductive ModelsFetch
  | fetchError (msg : String)
  | parseError (msg : String)
  | ok (data : ModelsPayload)
deriving DecidableEq

/-- The model-selection state of `appState` (`app.js` lines 23-30) as read
and written by `loadAvailableModels`. -/
structure AppState where
  selectedModel : String
  availableModels : List OllamaModel
deriving DecidableEq

/-- The hardcoded default model (`app.js` line 26). -/
def defaultModel : String := "llama3.1:8b-instruct-q8_0"

/-- The application state before any refresh (`app.js` lines 23-30). -/
def initialAppState : AppState :=
  { selectedModel := defaultModel, availableModels := [] }

/-- The connection-status widget state (`model-status-dot` class and
`model-status-text` content). -/
structure ConnStatus where
  dotClass : String
  text : String
deriving DecidableEq

/-- The degraded status written by the catch block at lines 266-267. -/
def offlineStatus : ConnStatus :=
  { dotClass := "status-dot error", text := "Ollama offline" }

/-- Shallow embedding of `loadAvailableModels` (`app.js` lines 231-269).
`storage` is `localStorage.getItem` for the key `selectedModel` (`none`
when absent).  Line 240 guards on `data.success && data.models &&
data.models.length > 0` (an absent `models` field or an empty array fails
the guard); any other combination throws into the catch block, which
leaves the application state unchanged and marks the status degraded.  On
the success branch line 250 computes `localStorage.getItem || current
selection`, lines 251-256 keep the saved model when it is a member of the
new list and otherwise fall back to `data.models[0].name`.  The DOM
`select` element is assumed present, as are the status widgets. -/
def loadAvailableModels (st : AppState) (storage : Option String)
    (f : ModelsFetch) : AppState × ConnStatus :=
  match f with
  | .ok data =>
      match data.models with
      | some (m :: rest) =>
          if data.success.truthy then
            let models := m :: rest
            let savedModel := jsOrString storage st.selectedModel
            let sel :=
              if models.any (fun mo => mo.name == savedModel) then savedModel
              else m.name
            ({ selectedModel := sel, availableModels := models },
             { dotClass := "status-dot connected",
               text := toString models.length ++ " modèles" })
          else (st, offlineStatus)
      | _ => (st, offlineStatus)
  | _ => (st, offlineStatus)

/-- C6: after every successful model-list refresh the available set is
replaced by the fetched list, the active model is the persisted (or
previously selected) name when that name is a member of the new list and
the first fetched model otherwise, and hence is always a member of the
refreshed available-model set; before any refresh the active model is the
hardcoded default. -/
theorem loadAvailableModels_active_model_membership (st : AppState)
    (storage : Option String) (data : ModelsPayload) (m : OllamaModel)
    (rest : List OllamaModel) (hs : data.success.truthy = true)
    (hm : data.models = some (m :: rest)) :
    ((loadAvailableModels st storage (.ok data)).1.availableModels = m :: rest) ∧
    ((loadAvailableModels st storage (.ok data)).1.selectedModel =
      if (m :: rest).any
          (fun mo => mo.name == jsOrString storage st.selectedModel) then
        jsOrString storage st.selectedModel
      else m.name) ∧
    ((loadAvailableModels st storage (.ok data)).1.selectedModel ∈
      (m :: rest).map OllamaModel.name) ∧
    initialAppState.selectedModel = defaultModel := by
  have hred :
      loadAvailableModels st storage (.ok data) =
        ({ selectedModel :=
             if (m :: rest).any
                 (fun mo => mo.name == jsOrString storage st.selectedModel) then
               jsOrString storage st.selectedModel
             else m.name,
           availableModels := m :: rest },
         { dotClass := "status-dot connected",
           text := toString (m :: rest).length ++ " modèles" }) := by
    simp only [loadAvailableModels, hm, hs, if_true]
  refine ⟨by rw [hred], by rw [hred], ?_, rfl⟩
  rw [hred]
  rcases hmem : (m :: rest).any
      (fun mo => mo.name == jsOrString storage st.selectedModel) with _ | _
  · simp only [hmem, if_false, Bool.false_eq_true, reduceIte]
    exact List.mem_map_of_mem OllamaModel.name (List.mem_cons_self m rest)
  · simp only [hmem, if_true]
    obtain ⟨mo, hmo, hname⟩ := List.any_eq_true.mp hmem
    exact List.mem_map.mpr ⟨mo, hmo, (beq_iff_eq.mp hname)⟩

/-- Witness for C6: a refresh returning models `a, b` while the persisted
selection is `b` keeps `b`; the initial active model is the default. -/
theorem loadAvailableModels_active_model_membership_witness :
    ((loadAvailableModels initialAppState (some "b")
        (.ok ⟨.jbool true, none, some [⟨"a"⟩, ⟨"b"⟩]⟩)).1.selectedModel ∈
      ([⟨"a"⟩, ⟨"b"⟩] : List OllamaModel).map OllamaModel.name) ∧
    initialAppState.selectedModel = defaultModel :=
  ⟨(loadAvailableModels_active_model_membership initialAppState (some "b")
      ⟨.jbool true, none, some [⟨"a"⟩, ⟨"b"⟩]⟩ ⟨"a"⟩ [⟨"b"⟩] rfl rfl).2.2.1,
   (loadAvailableModels_active_model_membership initialAppState (some "b")
      ⟨.jbool true, none, some [⟨"a"⟩, ⟨"b"⟩]⟩ ⟨"a"⟩ [⟨"b"⟩] rfl rfl).2.2.2⟩

/-- A model-list refresh attempt that fails: the fetch rejected, the body
did not parse, the payload `success` flag is falsey, the `models` field is
absent, or the model list is empty (the guard at `app.js` line 240). -/
def refreshFails : ModelsFetch → Bool
  | .fetchError _ => true
  | .parseError _ => true
  | .ok data =>
      !(data.success.truthy &&
        (match data.models with
         | some ms => decide (0 < ms.length)
         | none => false))

/-- C7: when a model-list refresh fails in any of the enumerated ways, the
previously selected model and the previously known available-model set are
left unchanged, the connection status is marked degraded, and
`loadAvailableModels` returns normally (it is a total function; the
exception is caught at line 264). -/
theorem loadAvailableModels_failure_preserves_state (st : AppState)
    (storage : Option String) (f : ModelsFetch) (h : refreshFails f = true) :
    loadAvailableModels st storage f = (st, offlineStatus) := by
  rcases f with msg | msg | data
  · rfl
  · rfl
  · rcases hm : data.models with _ | ms
    · simp [loadAvailableModels, hm]
    · rcases ms with _ | ⟨m, rest⟩
      · simp [loadAvailableModels, hm]
      · simp only [refreshFails, hm] at h
        rcases htr : data.success.truthy with _ | _
        · simp [loadAvailableModels, hm, htr]
        · rw [htr] at h
          simp at h

/-- Witness for C7 at a concrete failed refresh (successful transport but
empty model list). -/
theorem loadAvailableModels_failure_preserves_state_witness :
    loadAvailableModels initialAppState none (.ok ⟨.jbool true, none, some []⟩) =
      (initialAppState, offlineStatus) :=
  loadAvailableModels_failure_preserves_state initialAppState none
    (.ok ⟨.jbool true, none, some []⟩) rfl

/-- The nested `result` object of one batch item (`app.js` line 950 reads
`res.result.file_size`). -/
structure BatchItemResult where
  file_size : Nat
deriving DecidableEq, Repr

/-- One entry of `data.results` in the ComfyUI batch response (`app.js`
lines 947-951 read `res.success`, `res.sign`, `res.error`,
`res.result.file_size`). -/
structure BatchItem where
  sign : String
  success : Bool
  error : String
  result : BatchItemResult
deriving DecidableEq, Repr

/-- The body of the ComfyUI batch response as
`createComfyUIBatchResultHTML` consumes it (`data.message`,
`data.results`). -/
structure BatchData where
  message : String
  results : List BatchItem
deriving DecidableEq, Repr

/-- The `signNames` lookup table (`app.js` line 34); an unknown key gives
JS `undefined`, which a template literal renders as the string
`undefined`. -/
def signNames : String → String
  | "aries" => "Bélier"
  | "taurus" => "Taureau"
  | "gemini" => "Gémeaux"
  | "cancer" => "Cancer"
  | "leo" => "Lion"
  | "virgo" => "Vierge"
  | "libra" => "Balance"
  | "scorpio" => "Scorpion"
  | "sagittarius" => "Sagittaire"
  | "capricorn" => "Capricorne"
  | "aquarius" => "Verseau"
  | "pisces" => "Poissons"
  | _ => "undefined"

/-- Models `(num / den).toFixed(1)` of `formatFileSize` in exact natural
arithmetic: the quotient rounded to one decimal, half rounded up (JS
computes this on a binary float, whose rounding can differ on exact ties;
no claim depends on the tie behaviour). -/
def toFixed1 (num den : Nat) : String :=
  let scaled := (num * 10 + den / 2) / den
  toString (scaled / 10) ++ "." ++ toString (scaled % 10)

/-- Shallow embedding of `formatFileSize` (`app.js` lines 130-134). -/
def formatFileSize (bytes : Nat) : String :=
  if bytes < 1024 then toString bytes ++ " B"
  else if bytes < 1048576 then toFixed1 bytes 1024 ++ " KB"
  else toFixed1 bytes 1048576 ++ " MB"

/-- One `<li>` entry of the batch result list (`app.js` lines 947-952,
the body of the `data.results.map` callback; the template literal's inner
indentation whitespace is normalized away). -/
def renderBatchItem (res : BatchItem) : String :=
  "<li class=\"" ++ (if res.success then "success" else "error") ++
    "\"><strong>" ++ signNames res.sign ++ ":</strong> " ++
    (if res.success then "Réussi (" ++ formatFileSize res.result.file_size ++ ")"
     else "Échoué - " ++ res.error) ++ "</li>"

/-- Shallow embedding of `createComfyUIBatchResultHTML` (`app.js` lines
946-960): the per-item entries are the elementwise map of
`renderBatchItem` over `data.results`, joined in order (`.map(...).join('')`),
wrapped in the header markup. -/
def createComfyUIBatchResultHTML (data : BatchData) : String :=
  "<div class=\"horoscope-result\"><h3 style=\"color: #00ff41;\">Batch ComfyUI Terminé !</h3><p>" ++
    data.message ++ "</p><ul class=\"batch-results-list\">" ++
    String.join (data.results.map renderBatchItem) ++ "</ul></div>"

/-- One entry of `response.details` in the YouTube batch-upload response
(`app.js` lines 887-889 read `res.success`, `res.sign`, `res.error`). -/
structure UploadItem where
  sign : String
  success : Bool
  error : String
deriving DecidableEq, Repr

/-- The body of the YouTube batch-upload response (`response.summary`,
`response.details`). -/
structure UploadBatchData where
  summary : String
  details : List UploadItem
deriving DecidableEq, Repr

/-- One `<p>` line of the upload report (`app.js` line 888). -/
def renderUploadDetail (res : UploadItem) : String :=
  "<p>" ++ (if res.success then "✅" else "❌") ++ " " ++ signNames res.sign ++
    ": " ++ (if res.success then "OK" else res.error) ++ "</p>"

/-- The report built by accumulation at `app.js` lines 886-890: header,
one line per detail entry in order, closing tag (string accumulation over
`forEach` equals the ordered join of the per-item renderings). -/
def uploadBatchResultHTML (details : List UploadItem) : String :=
  "<div class=\"horoscope-result\"><h3>Résultats de l\x27Upload Batch</h3>" ++
    String.join (details.map renderUploadDetail) ++ "</div>"

/-- The `summary` object of the batch workflow response (`app.js` line 787
reads `response.summary.message`). -/
structure MontageSummary where
  message : String
deriving DecidableEq, Repr

/-- The body of the full-workflow batch response. -/
structure MontageData where
  summary : MontageSummary
deriving DecidableEq, Repr

/-- Observable events of a batch-workflow coordinator invocation: the
events of its `makeApiRequest` call, DOM renders into the result target,
and blocking `alert` dialogs. -/
inductive UIEvent
  | api (e : Event)
  | render (html : String)
  | alertMsg (msg : String)
deriving DecidableEq

/-- Shallow embedding of `generateComfyUIBatchVideos` (`app.js` lines
703-724).  `confirmed` is the value of the `confirm` prompt at line 704:
when declined the function returns immediately, with no network call and
no state or DOM change; when confirmed the request runs through
`makeApiRequest` and a non-null response is rendered through
`createComfyUIBatchResultHTML`. -/
def generateComfyUIBatchVideos (confirmed : Bool)
    (inp : RequestInput BatchData) : List UIEvent :=
  if !confirmed then []
  else
    (makeApiRequest inp).1.map UIEvent.api ++
      match (makeApiRequest inp).2 with
      | some data => [UIEvent.render (createComfyUIBatchResultHTML data.body)]
      | none => []

/-- Shallow embedding of `generateFullMontage` (`app.js` lines 768-789):
the confirmation prompt at line 769 gates the whole body. -/
def generateFullMontage (confirmed : Bool)
    (inp : RequestInput MontageData) : List UIEvent :=
  if !confirmed then []
  else
    (makeApiRequest inp).1.map UIEvent.api ++
      match (makeApiRequest inp).2 with
      | some data =>
          [UIEvent.render
            ("<div class=\"horoscope-result\"><h3 style=\"color: #00ff41;\">✅ Workflow de Lot Terminé !</h3><p>" ++
              data.body.summary.message ++ "</p></div>")]
      | none => []

/-- Shallow embedding of `uploadBatchToYouTube` (`app.js` lines 868-893):
the confirmation prompt at line 869 gates the whole body; a non-null
response raises the summary alert and renders the per-item report. -/
def uploadBatchToYouTube (confirmed : Bool)
    (inp : RequestInput UploadBatchData) : List UIEvent :=
  if !confirmed then []
  else
    (makeApiRequest inp).1.map UIEvent.api ++
      match (makeApiRequest inp).2 with
      | some data =>
          [UIEvent.alertMsg ("Batch Upload terminé: " ++ data.body.summary),
           UIEvent.render (uploadBatchResultHTML data.body.details)]
      | none => []

/-- C8: for each batch workflow (12-sign video batch, 12-sign full
workflow, batch upload), a declined confirmation prompt makes the function
return with an empty event trace: no network call is dispatched and no
state or DOM change happens, whatever the would-be request outcome. -/
theorem batch_workflows_require_confirmation (i1 : RequestInput BatchData)
    (i2 : RequestInput MontageData) (i3 : RequestInput UploadBatchData) :
    generateComfyUIBatchVideos false i1 = [] ∧
    generateFullMontage false i2 = [] ∧
    uploadBatchToYouTube false i3 = [] :=
  ⟨rfl, rfl, rfl⟩

/-- Concatenation of strings is associative (needed to expose the error
substring inside a rendered entry). -/
theorem string_append_assoc (a b c : String) : a ++ b ++ c = a ++ (b ++ c) :=
  congrArg String.mk (List.append_assoc a.data b.data c.data)

/-- C9: the batch outcome rendering is a pure function of the per-item
result list: it emits exactly one entry per input item, the entries are
the elementwise map of the item renderer in input order (no item dropped
or reordered), every failed item's entry ends with that item's error
message, the full report is the ordered join of the entries wrapped in
fixed markup, identical inputs yield identical output, and the same
holds for the YouTube batch-upload detail rendering. -/
theorem batch_rendering_faithful (data : BatchData) :
    ((data.results.map renderBatchItem).length = data.results.length) ∧
    (∀ i (h : i < data.results.length),
        (data.results.map renderBatchItem).get
            ⟨i, by simp only [List.length_map]; exact h⟩ =
          renderBatchItem (data.results.get ⟨i, h⟩)) ∧
    (∀ res : BatchItem, res.success = false →
        ∃ pre : String, renderBatchItem res = pre ++ res.error ++ "</li>") ∧
    (createComfyUIBatchResultHTML data =
      "<div class=\"horoscope-result\"><h3 style=\"color: #00ff41;\">Batch ComfyUI Terminé !</h3><p>" ++
        data.message ++ "</p><ul class=\"batch-results-list\">" ++
        String.join (data.results.map renderBatchItem) ++ "</ul></div>") ∧
    (∀ d1 d2 : BatchData, d1 = d2 →
        createComfyUIBatchResultHTML d1 = createComfyUIBatchResultHTML d2) ∧
    (∀ details : List UploadItem,
        (details.map renderUploadDetail).length = details.length) ∧
    (∀ res : UploadItem, res.success = false →
        ∃ pre : String, renderUploadDetail res = pre ++ res.error ++ "</p>") := by
  refine ⟨List.length_map _ _, ?_, ?_, rfl, fun d1 d2 h => by rw [h],
    fun details => List.length_map _ _, ?_⟩
  · intro i h
    simp [List.get_eq_getElem, List.getElem_map]
  · intro res h
    refine ⟨"<li class=\"" ++ "error" ++ "\"><strong>" ++ signNames res.sign ++
      ":</strong> " ++ "Échoué - ", ?_⟩
    unfold renderBatchItem
    rw [h]
    exact congrArg (fun s => s ++ "</li>")
      (string_append_assoc ("<li class=\"" ++ "error" ++ "\"><strong>" ++
        signNames res.sign ++ ":</strong> ") "Échoué - " res.error).symm
  · intro res h
    refine ⟨"<p>" ++ "❌" ++ " " ++ signNames res.sign ++ ": ", ?_⟩
    unfold renderUploadDetail
    rw [h]
    rfl

/-- Witness for C9: on a concrete two-item report with a failure in second
position, the second rendered entry is the rendering of the second item
and carries its error message. -/
theorem batch_rendering_faithful_witness :
    (([⟨"aries", true, "", ⟨2048⟩⟩, ⟨"taurus", false, "timeout", ⟨0⟩⟩] :
        List BatchItem).map renderBatchItem).get ⟨1, by simp⟩ =
      renderBatchItem ⟨"taurus", false, "timeout", ⟨0⟩⟩ ∧
    ∃ pre : String,
      renderBatchItem ⟨"taurus", false, "timeout", ⟨0⟩⟩ =
        pre ++ "timeout" ++ "</li>" :=
  ⟨(batch_rendering_faithful ⟨"1/2", [⟨"aries", true, "", ⟨2048⟩⟩,
      ⟨"taurus", false, "timeout", ⟨0⟩⟩]⟩).2.1 1 (by decide),
   (batch_rendering_faithful ⟨"1/2", [⟨"aries", true, "", ⟨2048⟩⟩,
      ⟨"taurus", false, "timeout", ⟨0⟩⟩]⟩).2.2.1
     ⟨"taurus", false, "timeout", ⟨0⟩⟩ rfl⟩
